import Mathlib

/-!
Verification of the two-stage ("Tag Team") image-analysis HTTP handler
`analyze_image` from `src/main.py`.

The handler is embedded as a pure Lean function.  The two remote inference
operations (`image_to_text` and `chat_completion` on the shared
`AsyncInferenceClient`) are passed in as stub functions returning
`Except String _` (an `.error e` models the Python call raising an exception
whose `str()` is `e`).  The function returns both the handler's outcome and a
trace recording how often the file was read and which inference calls were
made with which arguments, so that the "stage 2 is never invoked" style
properties are expressible.

Python-specific behaviour is modelled explicitly:
* `if not HF_API_KEY:` is Python truthiness on an `Optional[str]`
  (`pyTruthy`);
* `file.content_type` may be `None`, in which case
  `file.content_type.startswith("image/")` raises an `AttributeError`
  outside every `try` region, escaping the handler body
  (`HandlerResult.uncaught`);
* an `HTTPException` raised inside a stage handler propagates through the
  outer `except HTTPException as he: raise he` clause unchanged, so it is
  modelled as a direct `HandlerResult.httpError`;
* `response.choices[0]` on an empty list raises an `IndexError` inside the
  stage-2 `try`, hence is converted to the stage-2 503 error.
-/

namespace TagTeam

/-- `VISION_MODEL` from `src/main.py` line 22. -/
def VISION_MODEL : String := "microsoft/Florence-2-large"

/-- `LOGIC_MODEL` from `src/main.py` line 23. -/
def LOGIC_MODEL : String := "Qwen/Qwen2.5-3B-Instruct"

/-- Python truthiness of an `Optional[str]`: `None` and `""` are falsy. -/
def pyTruthy : Option String → Bool
  | none => false
  | some s => !(s == "")

/-- The `message` object of one chat-completion choice; per the upstream
collaborator contract its `content` is extractable as a string. -/
structure ChatMessageOut where
  content : String
  deriving DecidableEq

/-- One choice of a chat-completion response. -/
structure ChatChoice where
  message : ChatMessageOut
  deriving DecidableEq

/-- The structured response of the `chat_completion` operation. -/
structure ChatCompletionOutput where
  choices : List ChatChoice
  deriving DecidableEq

/-- The arguments `analyze_image` passes to `hf_client.chat_completion`
(`src/main.py` lines 118-123): model id, role/content message list,
`max_tokens`, `temperature`. -/
structure ChatArgs where
  model : String
  messages : List (String × String)
  maxTokens : Nat
  temperature : ℚ
  deriving DecidableEq

/-- The request-scoped upload: the declared content type (possibly absent)
and the outcome of `await file.read()` (`.error e` models the read raising
an exception with text `e`). -/
structure Request where
  contentType : Option String
  readFile : Except String (List Nat)

/-- Stubs for the two remote operations of the shared inference client. -/
structure Stubs where
  imageToText : List Nat → Except String String
  chatCompletion : ChatArgs → Except String ChatCompletionOutput

/-- Trace of the observable effects of one handler run. -/
structure Trace where
  fileReads : Nat
  visionCalls : List (List Nat)
  logicCalls : List ChatArgs
  deriving DecidableEq

/-- The trace of a run that performed no read and no inference call. -/
def emptyTrace : Trace := ⟨0, [], []⟩

/-- Outcome of one handler run: an `HTTPException` (FastAPI renders it as the
given status with body `\x7b"detail": <detail>\x7d`), a success return
(status 200 with body `\x7b"vision_output": v, "final_answer": a\x7d`), or a
non-`HTTPException` exception escaping the handler body. -/
inductive HandlerResult where
  | httpError (statusCode : Nat) (detail : String)
  | success (visionOutput : String) (finalAnswer : String)
  | uncaught (exc : String)
  deriving DecidableEq

/-- Python's `str.startswith(pre)`: `pre` is a prefix of the string
(`src/main.py` line 61 applies it to the declared content type). -/
def pyStartsWith (s pre : String) : Bool :=
  pre.data.isPrefixOf s.data

/-- Drop leading and trailing whitespace from a character list. -/
def stripChars (l : List Char) : List Char :=
  ((l.dropWhile Char.isWhitespace).reverse.dropWhile Char.isWhitespace).reverse

/-- Python's `str.strip()` with no argument: remove leading and trailing
whitespace (`src/main.py` line 94 applies it to the vision output). -/
def pyStrip (s : String) : String := ⟨stripChars s.data⟩

/-- The prompt constructed for the logic stage (`src/main.py` lines 105-108),
a fixed template around the trimmed vision output. -/
def mkPrompt (imageDescription : String) : String :=
  "User uploaded an image containing this text: " ++ imageDescription ++
    ". Act as a helpful assistant and answer the user's request based on this."

/-- The argument record of the `chat_completion` call
(`src/main.py` lines 112-123). -/
def mkChatArgs (prompt : String) : ChatArgs :=
  { model := LOGIC_MODEL
    messages := [("user", prompt)]
    maxTokens := 500
    temperature := 7 / 10 }

/-- Shallow embedding of the `analyze_image` handler
(`src/main.py` lines 49-147). -/
def analyze_image (HF_API_KEY : Option String) (hf_client : Stubs)
    (file : Request) : HandlerResult × Trace :=
  if pyTruthy HF_API_KEY = false then
    (.httpError 500 "Server configuration error: HF_API_KEY is missing.",
      emptyTrace)
  else
    match file.contentType with
    | none =>
        (.uncaught "AttributeError: 'NoneType' object has no attribute 'startswith'",
          emptyTrace)
    | some ct =>
        if !(pyStartsWith ct "image/") then
          (.httpError 400 "Invalid file type. Please upload an image.",
            emptyTrace)
        else
          match file.readFile with
          | .error _ =>
              (.httpError 500 "An unexpected error occurred processing your request.",
                ⟨1, [], []⟩)
          | .ok image_content =>
              match hf_client.imageToText image_content with
              | .error e =>
                  (.httpError 503 ("Vision model service failed: " ++ e),
                    ⟨1, [image_content], []⟩)
              | .ok vision_result =>
                  let image_description := pyStrip vision_result
                  let args := mkChatArgs (mkPrompt image_description)
                  match hf_client.chatCompletion args with
                  | .error e =>
                      (.httpError 503 ("Logic model service failed: " ++ e),
                        ⟨1, [image_content], [args]⟩)
                  | .ok response =>
                      match response.choices with
                      | [] =>
                          (.httpError 503
                              ("Logic model service failed: " ++ "list index out of range"),
                            ⟨1, [image_content], [args]⟩)
                      | choice :: _ =>
                          (.success image_description choice.message.content,
                            ⟨1, [image_content], [args]⟩)

/-- Substring test on character lists, used to state "the detail contains the
error text" properties. -/
def hasSubAux : List Char → List Char → Bool
  | [], pat => pat.isEmpty
  | c :: t, pat => pat.isPrefixOf (c :: t) || hasSubAux t pat

/-- `strHasSub s pat = true` iff `pat` occurs contiguously inside `s`. -/
def strHasSub (s pat : String) : Bool :=
  hasSubAux s.data pat.data

/-- A pattern occurs in any list that ends with it. -/
lemma hasSubAux_append (a pat : List Char) : hasSubAux (a ++ pat) pat = true := by
  induction a with
  | nil =>
      cases pat with
      | nil => rfl
      | cons c t => simp [hasSubAux, List.isPrefixOf_iff_prefix]
  | cons x xs ih => simp [hasSubAux, ih]

/-- A string contains any of its suffixes, in particular an error detail built
as `fixed text ++ upstream error` contains the upstream error text. -/
lemma strHasSub_left_append (p e : String) : strHasSub (p ++ e) e = true := by
  simpa [strHasSub, String.data_append] using hasSubAux_append p.data e.data

/-- A stage-1 error detail is never equal to a stage-2 error detail, whatever
the upstream texts: the fixed lead-ins differ. -/
lemma vision_detail_ne_logic_detail (a b : String) :
    "Vision model service failed: " ++ a ≠ "Logic model service failed: " ++ b := by
  intro h
  have h2 := congrArg (fun s => s.data.head?) h
  simp [String.data_append] at h2

/-- Concrete image bytes used by the witnesses. -/
def demoBytes : List Nat := [137, 80, 78, 71]

/-- A well-formed PNG upload. -/
def reqPng : Request := ⟨some "image/png", .ok demoBytes⟩

/-- An upload with no declared content type (`content_type` is `None`). -/
def reqNoCT : Request := ⟨none, .ok demoBytes⟩

/-- A non-image upload. -/
def reqText : Request := ⟨some "text/plain", .ok demoBytes⟩

/-- An image upload whose `file.read()` raises an exception. -/
def reqReadFail : Request := ⟨some "image/png", .error "disk exploded"⟩

/-- Stubs where the vision stage raises and the logic stage would succeed. -/
def stubsVisionFail : Stubs :=
  ⟨fun _ => .error "boom", fun _ => .ok ⟨[⟨⟨"unreached"⟩⟩]⟩⟩

/-- Deterministic stubs for the end-to-end success scenario of the spec. -/
def stubsCat : Stubs :=
  ⟨fun _ => .ok "a cat sitting on a mat",
    fun _ => .ok ⟨[⟨⟨"The cat is on the mat."⟩⟩]⟩⟩

/-- Stubs where the vision stage succeeds and the logic stage raises. -/
def stubsLogicFail : Stubs :=
  ⟨fun _ => .ok "a cat sitting on a mat", fun _ => .error "brain down"⟩

/-- Stubs whose vision stage returns text with surrounding whitespace. -/
def stubsRedBike : Stubs :=
  ⟨fun _ => .ok "  a red bicycle  ", fun _ => .error "ignored"⟩

/-- C3: with the configuration secret absent (Python-falsy `HF_API_KEY`), every
request to `/analyze` yields HTTP 500 with the configuration-error detail,
whatever the payload and content type; the trace is empty, so the check runs
before the content-type check, before any file read and before any inference
call. -/
theorem missing_key_yields_500_before_everything (HF_API_KEY : Option String)
    (hf_client : Stubs) (file : Request)
    (hkey : pyTruthy HF_API_KEY = false) :
    analyze_image HF_API_KEY hf_client file =
      (.httpError 500 "Server configuration error: HF_API_KEY is missing.",
        emptyTrace) := by
  simp [analyze_image, hkey]

/-- Witness for C3: a request with no declared content type still gets the
configuration 500 when the key is missing. -/
theorem missing_key_yields_500_before_everything_witness :
    analyze_image none stubsCat reqNoCT =
      (.httpError 500 "Server configuration error: HF_API_KEY is missing.",
        emptyTrace) :=
  missing_key_yields_500_before_everything none stubsCat reqNoCT rfl

/-- C4: with configuration present, an upload whose declared content type does
not start with `image/` yields HTTP 400 with the invalid-file detail; the
empty trace shows the file is never read and neither stage is invoked. -/
theorem bad_content_type_yields_400_no_calls (HF_API_KEY : Option String)
    (hf_client : Stubs) (file : Request) (ct : String)
    (hkey : pyTruthy HF_API_KEY = true)
    (hct : file.contentType = some ct)
    (him : pyStartsWith ct "image/" = false) :
    analyze_image HF_API_KEY hf_client file =
      (.httpError 400 "Invalid file type. Please upload an image.",
        emptyTrace) := by
  simp [analyze_image, hkey, hct, him]

/-- Witness for C4: a `text/plain` upload is rejected with 400 and no calls. -/
theorem bad_content_type_yields_400_no_calls_witness :
    analyze_image (some "key") stubsCat reqText =
      (.httpError 400 "Invalid file type. Please upload an image.",
        emptyTrace) :=
  bad_content_type_yields_400_no_calls (some "key") stubsCat reqText
    "text/plain" rfl rfl rfl

/-- C10: with configuration present and no declared content type, evaluating
`file.content_type.startswith("image/")` raises an `AttributeError` outside
every try-region, so the handler produces neither the 400 response nor any
`HTTPException` response at all (in particular not the fixed-message 500
catch-all): the exception escapes the handler body. -/
theorem none_content_type_escapes_handler (HF_API_KEY : Option String)
    (hf_client : Stubs) (file : Request)
    (hkey : pyTruthy HF_API_KEY = true)
    (hct : file.contentType = none) :
    analyze_image HF_API_KEY hf_client file =
      (.uncaught "AttributeError: 'NoneType' object has no attribute 'startswith'",
        emptyTrace) ∧
    ∀ st d, (analyze_image HF_API_KEY hf_client file).1 ≠ .httpError st d := by
  have h : analyze_image HF_API_KEY hf_client file =
      (.uncaught "AttributeError: 'NoneType' object has no attribute 'startswith'",
        emptyTrace) := by
    simp [analyze_image, hkey, hct]
  refine ⟨h, ?_⟩
  intro st d
  rw [h]
  simp

/-- Witness for C10: a keyed request with `content_type = None` escapes. -/
theorem none_content_type_escapes_handler_witness :
    analyze_image (some "key") stubsCat reqNoCT =
      (.uncaught "AttributeError: 'NoneType' object has no attribute 'startswith'",
        emptyTrace) ∧
    ∀ st d, (analyze_image (some "key") stubsCat reqNoCT).1 ≠
      .httpError st d :=
  none_content_type_escapes_handler (some "key") stubsCat reqNoCT rfl rfl

/-- C8: an exception raised inside the outer try-region but outside both stage
try-regions — here the `file.read()` call raising with text `e` — is caught at
the outer boundary and reported as HTTP 500 whose detail is the fixed message,
independent of `e`: no raw exception text reaches the catch-all. -/
theorem unclassified_exception_yields_fixed_500 (HF_API_KEY : Option String)
    (hf_client : Stubs) (file : Request) (ct e : String)
    (hkey : pyTruthy HF_API_KEY = true)
    (hct : file.contentType = some ct)
    (him : pyStartsWith ct "image/" = true)
    (hread : file.readFile = .error e) :
    (analyze_image HF_API_KEY hf_client file).1 =
      .httpError 500 "An unexpected error occurred processing your request." := by
  simp [analyze_image, hkey, hct, him, hread]

/-- Witness for C8: a failing read maps to the fixed 500 message, which does
not mention the exception text. -/
theorem unclassified_exception_yields_fixed_500_witness :
    (analyze_image (some "key") stubsCat reqReadFail).1 =
      .httpError 500 "An unexpected error occurred processing your request." ∧
    strHasSub "An unexpected error occurred processing your request."
      "disk exploded" = false :=
  ⟨unclassified_exception_yields_fixed_500 (some "key") stubsCat reqReadFail
    "image/png" "disk exploded" rfl rfl rfl rfl, by decide⟩

/-- C9: the handler is deterministic and keeps no per-request hidden state:
two requests with identical upload bytes (read outcome) and identical declared
content type, run against the same configuration and the same deterministic
stubs, produce identical results (status, body and trace). -/
theorem handler_deterministic (HF_API_KEY : Option String) (hf_client : Stubs)
    (file₁ file₂ : Request)
    (hct : file₁.contentType = file₂.contentType)
    (hbytes : file₁.readFile = file₂.readFile) :
    analyze_image HF_API_KEY hf_client file₁ =
      analyze_image HF_API_KEY hf_client file₂ := by
  have h : file₁ = file₂ := by
    cases file₁; cases file₂; simp_all
  rw [h]

/-- Witness for C9: replaying the same PNG upload yields the same response. -/
theorem handler_deterministic_witness :
    analyze_image (some "key") stubsCat reqPng =
      analyze_image (some "key") stubsCat ⟨some "image/png", .ok demoBytes⟩ :=
  handler_deterministic (some "key") stubsCat reqPng
    ⟨some "image/png", .ok demoBytes⟩ rfl rfl

/-- After validation, read and a successful vision call returning `s`, exactly
one logic call is recorded and its arguments are `mkChatArgs` of the prompt
built from the stripped vision output, whatever the logic stub then does. -/
lemma logicCalls_after_vision_ok (HF_API_KEY : Option String)
    (hf_client : Stubs) (file : Request) (ct : String) (content : List Nat)
    (s : String)
    (hkey : pyTruthy HF_API_KEY = true)
    (hct : file.contentType = some ct)
    (him : pyStartsWith ct "image/" = true)
    (hread : file.readFile = .ok content)
    (hvis : hf_client.imageToText content = .ok s) :
    (analyze_image HF_API_KEY hf_client file).2.logicCalls =
      [mkChatArgs (mkPrompt (pyStrip s))] := by
  rcases h2 : hf_client.chatCompletion (mkChatArgs (mkPrompt (pyStrip s)))
    with e | response
  · simp [analyze_image, hkey, hct, him, hread, hvis, h2]
  · rcases h3 : response.choices with _ | ⟨choice, rest⟩ <;>
      simp [analyze_image, hkey, hct, him, hread, hvis, h2, h3]

/-- C1: when validation passes and the vision-stage call raises with text `e`,
the response is HTTP 503, its detail contains the stage-1 error text, the
logic stage is never invoked (zero recorded logic calls), and the result is
neither a 500 nor a stage-2 503 detail. -/
theorem vision_failure_yields_503_no_stage2 (HF_API_KEY : Option String)
    (hf_client : Stubs) (file : Request) (ct : String) (content : List Nat)
    (e : String)
    (hkey : pyTruthy HF_API_KEY = true)
    (hct : file.contentType = some ct)
    (him : pyStartsWith ct "image/" = true)
    (hread : file.readFile = .ok content)
    (hvis : hf_client.imageToText content = .error e) :
    analyze_image HF_API_KEY hf_client file =
      (.httpError 503 ("Vision model service failed: " ++ e),
        ⟨1, [content], []⟩) ∧
    strHasSub ("Vision model service failed: " ++ e) e = true ∧
    (∀ d, (analyze_image HF_API_KEY hf_client file).1 ≠ .httpError 500 d) ∧
    ∀ d, (analyze_image HF_API_KEY hf_client file).1 ≠
      .httpError 503 ("Logic model service failed: " ++ d) := by
  have h : analyze_image HF_API_KEY hf_client file =
      (.httpError 503 ("Vision model service failed: " ++ e),
        ⟨1, [content], []⟩) := by
    simp [analyze_image, hkey, hct, him, hread, hvis]
  refine ⟨h, strHasSub_left_append _ e, ?_, ?_⟩
  · intro d hc
    rw [h] at hc
    simp at hc
  · intro d hc
    rw [h] at hc
    have hdetail := (HandlerResult.httpError.injEq _ _ _ _).mp hc
    exact vision_detail_ne_logic_detail e d hdetail.2

/-- Witness for C1: with a raising vision stub the run yields the stage-1 503
and records no logic call. -/
theorem vision_failure_yields_503_no_stage2_witness :
    analyze_image (some "key") stubsVisionFail reqPng =
      (.httpError 503 ("Vision model service failed: " ++ "boom"),
        ⟨1, [demoBytes], []⟩) ∧
    strHasSub ("Vision model service failed: " ++ "boom") "boom" = true ∧
    (∀ d, (analyze_image (some "key") stubsVisionFail reqPng).1 ≠
      .httpError 500 d) ∧
    ∀ d, (analyze_image (some "key") stubsVisionFail reqPng).1 ≠
      .httpError 503 ("Logic model service failed: " ++ d) :=
  vision_failure_yields_503_no_stage2 (some "key") stubsVisionFail reqPng
    "image/png" demoBytes "boom" rfl rfl rfl rfl rfl

/-- C2: when the vision stage succeeds and the logic-stage call raises with
text `e`, the response is HTTP 503 whose detail contains the stage-2 error
text, and the result is not the success shape. -/
theorem logic_failure_yields_503_not_success (HF_API_KEY : Option String)
    (hf_client : Stubs) (file : Request) (ct : String) (content : List Nat)
    (s e : String)
    (hkey : pyTruthy HF_API_KEY = true)
    (hct : file.contentType = some ct)
    (him : pyStartsWith ct "image/" = true)
    (hread : file.readFile = .ok content)
    (hvis : hf_client.imageToText content = .ok s)
    (hlogic : hf_client.chatCompletion (mkChatArgs (mkPrompt (pyStrip s))) =
      .error e) :
    analyze_image HF_API_KEY hf_client file =
      (.httpError 503 ("Logic model service failed: " ++ e),
        ⟨1, [content], [mkChatArgs (mkPrompt (pyStrip s))]⟩) ∧
    strHasSub ("Logic model service failed: " ++ e) e = true ∧
    ∀ v a, (analyze_image HF_API_KEY hf_client file).1 ≠ .success v a := by
  have h : analyze_image HF_API_KEY hf_client file =
      (.httpError 503 ("Logic model service failed: " ++ e),
        ⟨1, [content], [mkChatArgs (mkPrompt (pyStrip s))]⟩) := by
    simp [analyze_image, hkey, hct, him, hread, hvis, hlogic]
  refine ⟨h, strHasSub_left_append _ e, ?_⟩
  intro v a hc
  rw [h] at hc
  simp at hc

/-- Witness for C2: with a raising logic stub the run yields the stage-2 503
and no success body. -/
theorem logic_failure_yields_503_not_success_witness :
    analyze_image (some "key") stubsLogicFail reqPng =
      (.httpError 503 ("Logic model service failed: " ++ "brain down"),
        ⟨1, [demoBytes],
          [mkChatArgs (mkPrompt (pyStrip "a cat sitting on a mat"))]⟩) ∧
    strHasSub ("Logic model service failed: " ++ "brain down")
      "brain down" = true ∧
    ∀ v a, (analyze_image (some "key") stubsLogicFail reqPng).1 ≠
      .success v a :=
  logic_failure_yields_503_not_success (some "key") stubsLogicFail reqPng
    "image/png" demoBytes "a cat sitting on a mat" "brain down"
    rfl rfl rfl rfl rfl rfl

/-- C5: when both stages succeed, the response is HTTP 200 with body exactly
`\x7b"vision_output": pyStrip s, "final_answer": first choice's message
content\x7d`; both fields are strings of the `success` constructor, hence
non-null. -/
theorem both_stages_ok_yields_exact_body (HF_API_KEY : Option String)
    (hf_client : Stubs) (file : Request) (ct : String) (content : List Nat)
    (s : String) (response : ChatCompletionOutput) (choice : ChatChoice)
    (rest : List ChatChoice)
    (hkey : pyTruthy HF_API_KEY = true)
    (hct : file.contentType = some ct)
    (him : pyStartsWith ct "image/" = true)
    (hread : file.readFile = .ok content)
    (hvis : hf_client.imageToText content = .ok s)
    (hlogic : hf_client.chatCompletion (mkChatArgs (mkPrompt (pyStrip s))) =
      .ok response)
    (hchoices : response.choices = choice :: rest) :
    analyze_image HF_API_KEY hf_client file =
      (.success (pyStrip s) choice.message.content,
        ⟨1, [content], [mkChatArgs (mkPrompt (pyStrip s))]⟩) := by
  simp [analyze_image, hkey, hct, him, hread, hvis, hlogic, hchoices]

/-- Witness for C5: the spec's end-to-end scenario with the cat stubs yields
exactly the expected 200 body. -/
theorem both_stages_ok_yields_exact_body_witness :
    (analyze_image (some "key") stubsCat reqPng).1 =
      .success "a cat sitting on a mat" "The cat is on the mat." := by
  have h := both_stages_ok_yields_exact_body (some "key") stubsCat reqPng
    "image/png" demoBytes "a cat sitting on a mat"
    ⟨[⟨⟨"The cat is on the mat."⟩⟩]⟩ ⟨⟨"The cat is on the mat."⟩⟩ []
    rfl rfl rfl rfl rfl rfl rfl
  have hs : pyStrip "a cat sitting on a mat" = "a cat sitting on a mat" := by
    decide
  rw [h]
  simp [hs]

/-- C6: the prompt handed to the logic stage is a pure fixed template around
the stripped vision output `s`, with no branching on the content of `s`; for
the spec's example `"  a red bicycle  "` the prompt contains the trimmed text
and not the whitespace-surrounded original. -/
theorem prompt_is_pure_template_of_vision_output (HF_API_KEY : Option String)
    (hf_client : Stubs) (file : Request) (ct : String) (content : List Nat)
    (s : String)
    (hkey : pyTruthy HF_API_KEY = true)
    (hct : file.contentType = some ct)
    (him : pyStartsWith ct "image/" = true)
    (hread : file.readFile = .ok content)
    (hvis : hf_client.imageToText content = .ok s) :
    ((analyze_image HF_API_KEY hf_client file).2.logicCalls.map
        ChatArgs.messages) = [[("user", mkPrompt (pyStrip s))]] ∧
    mkPrompt (pyStrip s) =
      "User uploaded an image containing this text: " ++ pyStrip s ++
        ". Act as a helpful assistant and answer the user's request based on this." ∧
    (s = "  a red bicycle  " →
      strHasSub (mkPrompt (pyStrip s)) "a red bicycle" = true ∧
      strHasSub (mkPrompt (pyStrip s)) "  a red bicycle  " = false) := by
  refine ⟨?_, rfl, ?_⟩
  · rw [logicCalls_after_vision_ok HF_API_KEY hf_client file ct content s
      hkey hct him hread hvis]
    simp [mkChatArgs]
  · rintro rfl
    exact ⟨by decide, by decide⟩

/-- Witness for C6: the concrete red-bicycle scenario. -/
theorem prompt_is_pure_template_of_vision_output_witness :
    ((analyze_image (some "key") stubsRedBike reqPng).2.logicCalls.map
        ChatArgs.messages) =
      [[("user", mkPrompt (pyStrip "  a red bicycle  "))]] ∧
    strHasSub (mkPrompt (pyStrip "  a red bicycle  ")) "a red bicycle" = true ∧
    strHasSub (mkPrompt (pyStrip "  a red bicycle  "))
      "  a red bicycle  " = false := by
  obtain ⟨h1, h2, h3⟩ := prompt_is_pure_template_of_vision_output (some "key")
    stubsRedBike reqPng "image/png" demoBytes "  a red bicycle  "
    rfl rfl rfl rfl rfl
  exact ⟨h1, (h3 rfl).1, (h3 rfl).2⟩

/-- C7: every run reaching stage 2 makes exactly one logic call, whose message
list is the single user-role message carrying the constructed prompt, whose
`max_tokens` is 500 and whose `temperature` is 0.7 — constants independent of
every quantified input — and when the call returns a response whose choices
are non-empty, the answer returned is the first choice's message content. -/
theorem logic_call_args_and_extraction (HF_API_KEY : Option String)
    (hf_client : Stubs) (file : Request) (ct : String) (content : List Nat)
    (s : String)
    (hkey : pyTruthy HF_API_KEY = true)
    (hct : file.contentType = some ct)
    (him : pyStartsWith ct "image/" = true)
    (hread : file.readFile = .ok content)
    (hvis : hf_client.imageToText content = .ok s) :
    (analyze_image HF_API_KEY hf_client file).2.logicCalls =
      [mkChatArgs (mkPrompt (pyStrip s))] ∧
    (mkChatArgs (mkPrompt (pyStrip s))).messages =
      [("user", mkPrompt (pyStrip s))] ∧
    (mkChatArgs (mkPrompt (pyStrip s))).maxTokens = 500 ∧
    (mkChatArgs (mkPrompt (pyStrip s))).temperature = 7 / 10 ∧
    ∀ response choice rest,
      hf_client.chatCompletion (mkChatArgs (mkPrompt (pyStrip s))) =
        .ok response →
      response.choices = choice :: rest →
      (analyze_image HF_API_KEY hf_client file).1 =
        .success (pyStrip s) choice.message.content := by
  refine ⟨logicCalls_after_vision_ok HF_API_KEY hf_client file ct content s
    hkey hct him hread hvis, rfl, rfl, rfl, ?_⟩
  intro response choice rest hlogic hchoices
  simp [analyze_image, hkey, hct, him, hread, hvis, hlogic, hchoices]

/-- Witness for C7: the cat scenario records the single fixed-parameter logic
call. -/
theorem logic_call_args_and_extraction_witness :
    (analyze_image (some "key") stubsCat reqPng).2.logicCalls =
      [mkChatArgs (mkPrompt (pyStrip "a cat sitting on a mat"))] ∧
    (mkChatArgs (mkPrompt (pyStrip "a cat sitting on a mat"))).maxTokens =
      500 ∧
    (mkChatArgs (mkPrompt (pyStrip "a cat sitting on a mat"))).temperature =
      7 / 10 := by
  obtain ⟨h1, h2, h3, h4, h5⟩ := logic_call_args_and_extraction (some "key")
    stubsCat reqPng "image/png" demoBytes "a cat sitting on a mat"
    rfl rfl rfl rfl rfl
  exact ⟨h1, h3, h4⟩

end TagTeam
